import Mathlib

/-!
Shallow embedding of the SimpleMicroservices FastAPI application
(`main.py`, `models/course.py`, `models/student.py`).

Modelling conventions:
* `UUID` values are modelled as `Nat` (opaque identifiers).
* `datetime` values are modelled as `Nat` (opaque instants); each handler
  that calls `datetime.utcnow()` takes the current instant as a parameter.
* The two module-level dicts `students` and `courses` are modelled as
  association lists `Store V := List (Nat × V)` in insertion order, which is
  the iteration order of a Python dict.
* A handler that can raise returns `Except PyErr _`; `HTTPException(404)`
  is `PyErr.notFound`, `HTTPException(400)` is `PyErr.conflict`, a pydantic
  `ValidationError` escaping the handler is `PyErr.validationErr`, and the
  runtime errors `TypeError` / `NameError` / `AttributeError` are
  `PyErr.typeErr` / `PyErr.nameErr` / `PyErr.attrErr`.
* Pydantic "exclude unset" partial updates are modelled by giving every
  field of an Update payload the type `Option (Option α)`: the outer layer
  records whether the field was present in the payload, the inner layer is
  the (possibly null) supplied value.
* String lowercasing and containment model CPython `str.lower` / `in` on
  the ASCII strings the service handles.
-/

/-- Runtime errors a handler can surface. -/
inductive PyErr where
  | notFound
  | conflict
  | validationErr
  | typeErr
  | nameErr
  | attrErr
deriving DecidableEq, Repr

instance {ε α : Type} [DecidableEq ε] [DecidableEq α] : DecidableEq (Except ε α)
  | .error a, .error b =>
      decidable_of_iff (a = b) ⟨fun h => h ▸ rfl, fun h => by cases h; rfl⟩
  | .error _, .ok _ => isFalse (fun h => by cases h)
  | .ok _, .error _ => isFalse (fun h => by cases h)
  | .ok a, .ok b =>
      decidable_of_iff (a = b) ⟨fun h => h ▸ rfl, fun h => by cases h; rfl⟩

/-- In-memory store: a Python dict from UUID to record, in insertion order. -/
abbrev Store (V : Type) := List (Nat × V)

namespace Store

/-- `k in d` / `d[k]`: first binding of a key (dict keys are unique). -/
def lookup {V : Type} (s : Store V) (k : Nat) : Option V :=
  match s with
  | [] => none
  | (k', v) :: rest => if k' = k then some v else lookup rest k

/-- `d[k] = v`: replace the binding in place, or append a fresh key. -/
def set {V : Type} (s : Store V) (k : Nat) (v : V) : Store V :=
  match s with
  | [] => [(k, v)]
  | (k', v') :: rest => if k' = k then (k', v) :: rest else (k', v') :: set rest k v

/-- `del d[k]`: drop the binding for a key. -/
def erase {V : Type} (s : Store V) (k : Nat) : Store V :=
  match s with
  | [] => []
  | (k', v') :: rest => if k' = k then erase rest k else (k', v') :: erase rest k

/-- `d.values()` in insertion order. -/
def values {V : Type} (s : Store V) : List V := s.map Prod.snd

end Store

/-- ASCII lowercasing of one character, as CPython `str.lower` acts on ASCII. -/
def lowerChar (c : Char) : Char :=
  if 'A' ≤ c ∧ c ≤ 'Z' then Char.ofNat (c.toNat + 32) else c

/-- `s.lower()` on ASCII strings. -/
def lowerStr (s : String) : String := String.mk (s.data.map lowerChar)

/-- Whether `pre` is a prefix of the second list. -/
def listPrefixB : List Char → List Char → Bool
  | [], _ => true
  | _ :: _, [] => false
  | a :: as, b :: bs => a = b && listPrefixB as bs

/-- Whether `needle` occurs contiguously in the list. -/
def listSubB (needle : List Char) : List Char → Bool
  | [] => needle.isEmpty
  | c :: rest => listPrefixB needle (c :: rest) || listSubB needle rest

/-- Python `needle in hay` for strings: contiguous substring test. -/
def strContains (hay needle : String) : Bool := listSubB needle.data hay.data

/-- Python `str(x)` on an optional string-rendered value (`str(None) = "None"`). -/
def pyStr (o : Option String) : String :=
  match o with
  | none => "None"
  | some s => s

/-! ## Course model (`models/course.py`) -/

/-- `CourseBase`: the domain fields shared by every course shape. -/
structure CourseBase where
  department_code : String
  course_code : String
  title : String
  instructor : String
  days : String
  start_time : String
  end_time : String
  location : String
  size : Int
  credit : Int
  «section» : Option String
  enrollment : Option Int
deriving DecidableEq, Repr

/-- `CourseCreate` adds no fields to `CourseBase`. -/
abbrev CourseCreate := CourseBase

/-- `CourseUpdate`: every field optional; outer `Option` is pydantic
"was the field set in the payload", inner value is what was supplied. -/
structure CourseUpdate where
  department_code : Option (Option String) := none
  course_code : Option (Option String) := none
  title : Option (Option String) := none
  instructor : Option (Option String) := none
  days : Option (Option String) := none
  start_time : Option (Option String) := none
  end_time : Option (Option String) := none
  location : Option (Option String) := none
  size : Option (Option Int) := none
  credit : Option (Option Int) := none
  «section» : Option (Option String) := none
  enrollment : Option (Option Int) := none
deriving DecidableEq, Repr

/-- `CourseRead`: `CourseBase` plus server-assigned identity and timestamps. -/
structure CourseRead where
  department_code : String
  course_code : String
  title : String
  instructor : String
  days : String
  start_time : String
  end_time : String
  location : String
  size : Int
  credit : Int
  «section» : Option String
  enrollment : Option Int
  id : Nat
  created_at : Nat
  updated_at : Nat
deriving DecidableEq, Repr

/-- `CourseRead` has no attribute `course_id` (its field is `course_code`), so
a total embedding of the attribute access `c.course_id` yields no value. -/
def CourseRead.course_id_attr (_ : CourseRead) : Option String := none

/-- `model_dump()` of a `CourseRead` after a dict `update`: required fields may
have been overwritten with `None`, hence every value is optional. -/
structure CourseDump where
  department_code : Option String
  course_code : Option String
  title : Option String
  instructor : Option String
  days : Option String
  start_time : Option String
  end_time : Option String
  location : Option String
  size : Option Int
  credit : Option Int
  «section» : Option String
  enrollment : Option Int
  id : Nat
  created_at : Nat
  updated_at : Nat
deriving DecidableEq, Repr

/-- `CourseRead(**stored)`: pydantic re-validation of a merged dump. Required
fields must be non-null; optional fields pass through. -/
def CourseRead.validate (d : CourseDump) : Option CourseRead :=
  d.department_code.bind fun dc =>
  d.course_code.bind fun cc =>
  d.title.bind fun t =>
  d.instructor.bind fun ins =>
  d.days.bind fun dy =>
  d.start_time.bind fun st =>
  d.end_time.bind fun et =>
  d.location.bind fun loc =>
  d.size.bind fun sz =>
  d.credit.bind fun cr =>
  some { department_code := dc, course_code := cc, title := t, instructor := ins,
         days := dy, start_time := st, end_time := et, location := loc,
         size := sz, credit := cr, «section» := d.«section»,
         enrollment := d.enrollment, id := d.id, created_at := d.created_at,
         updated_at := d.updated_at }

/-- Dict-update of one field: a set payload value overwrites, unset keeps. -/
def updField {α : Type} (payload : Option α) (stored : α) : α :=
  payload.getD stored

/-- `stored.update(update.model_dump(exclude_unset=True))` followed by
`stored["updated_at"] = now`, for a course. -/
def overlayCourse (stored : CourseRead) (u : CourseUpdate) (now : Nat) : CourseDump :=
  { department_code := updField u.department_code (some stored.department_code)
    course_code := updField u.course_code (some stored.course_code)
    title := updField u.title (some stored.title)
    instructor := updField u.instructor (some stored.instructor)
    days := updField u.days (some stored.days)
    start_time := updField u.start_time (some stored.start_time)
    end_time := updField u.end_time (some stored.end_time)
    location := updField u.location (some stored.location)
    size := updField u.size (some stored.size)
    credit := updField u.credit (some stored.credit)
    «section» := updField u.«section» stored.«section»
    enrollment := updField u.enrollment stored.enrollment
    id := stored.id
    created_at := stored.created_at
    updated_at := now }

/-- The `CourseRead(id=new_id, created_at=now, updated_at=now, **course.model_dump())`
record built by `create_course`. -/
def mkCourseRead (new_id : Nat) (now : Nat) (c : CourseCreate) : CourseRead :=
  { department_code := c.department_code, course_code := c.course_code,
    title := c.title, instructor := c.instructor, days := c.days,
    start_time := c.start_time, end_time := c.end_time, location := c.location,
    size := c.size, credit := c.credit, «section» := c.«section»,
    enrollment := c.enrollment, id := new_id, created_at := now, updated_at := now }

/-! ## Course endpoints (`main.py`) -/

/-- `POST /courses` (`create_course`): returns the new store and the record. -/
def create_course (courses : Store CourseRead) (new_id : Nat) (now : Nat)
    (course : CourseCreate) : Except PyErr (Store CourseRead × CourseRead) :=
  if (courses.lookup new_id).isSome then
    .error .conflict
  else
    let r := mkCourseRead new_id now course
    .ok (courses.set new_id r, r)

/-- Query parameters of `GET /courses`. -/
structure CourseQuery where
  department_code : Option String := none
  course_code : Option String := none
  title : Option String := none
  instructor : Option String := none
  days : Option String := none
  start_time : Option String := none
  end_time : Option String := none
deriving DecidableEq, Repr

/-- Filter step `[c for c in results if c.department_code.lower() == department_code.lower()]`. -/
def courseDeptStep (q : String) (results : List CourseRead) : List CourseRead :=
  results.filter fun c => lowerStr c.department_code = lowerStr q

/-- Filter step `[c for c in results if c.course_id == course_code]`: evaluating
`c.course_id` on any element raises `AttributeError`, since `CourseRead` has no
such attribute; the comprehension short-circuits at the first element. -/
def courseCodeStep (q : String) : List CourseRead → Except PyErr (List CourseRead)
  | [] => .ok []
  | c :: rest =>
    match c.course_id_attr with
    | none => .error .attrErr
    | some v => do
      let r ← courseCodeStep q rest
      .ok (if v = q then c :: r else r)

/-- Filter step `[c for c in results if title.lower() in c.title.lower()]`. -/
def courseTitleStep (q : String) (results : List CourseRead) : List CourseRead :=
  results.filter fun c => strContains (lowerStr c.title) (lowerStr q)

/-- Filter step `[c for c in results if instructor.lower() in c.instructor.lower()]`. -/
def courseInstructorStep (q : String) (results : List CourseRead) : List CourseRead :=
  results.filter fun c => strContains (lowerStr c.instructor) (lowerStr q)

/-- Filter step `[c for c in results if days.lower() in c.days.lower()]`. -/
def courseDaysStep (q : String) (results : List CourseRead) : List CourseRead :=
  results.filter fun c => strContains (lowerStr c.days) (lowerStr q)

/-- Filter step `[c for c in results if c.start_time.lower() == start_time.lower()]`. -/
def courseStartStep (q : String) (results : List CourseRead) : List CourseRead :=
  results.filter fun c => lowerStr c.start_time = lowerStr q

/-- Filter step `[c for c in results if c.end_time.lower() == end_time.lower()]`. -/
def courseEndStep (q : String) (results : List CourseRead) : List CourseRead :=
  results.filter fun c => lowerStr c.end_time = lowerStr q

/-- Apply an optional pure filter step (`if param is not None: ...`). -/
def optStep {α : Type} (q : Option String) (step : String → List α → List α)
    (results : List α) : List α :=
  match q with
  | none => results
  | some s => step s results

/-- `GET /courses` (`list_courses`): the seven filter steps in source order. -/
def list_courses (courses : Store CourseRead) (q : CourseQuery) :
    Except PyErr (List CourseRead) := do
  let results := courses.values
  let results := optStep q.department_code courseDeptStep results
  let results ← match q.course_code with
    | none => pure results
    | some s => courseCodeStep s results
  let results := optStep q.title courseTitleStep results
  let results := optStep q.instructor courseInstructorStep results
  let results := optStep q.days courseDaysStep results
  let results := optStep q.start_time courseStartStep results
  let results := optStep q.end_time courseEndStep results
  return results

/-- `GET /courses/{course_id}` (`get_course`). -/
def get_course (courses : Store CourseRead) (course_id : Nat) :
    Except PyErr CourseRead :=
  match courses.lookup course_id with
  | none => .error .notFound
  | some c => .ok c

/-- `PATCH /courses/{course_id}` (`update_course`): merge the set fields over
the stored dump, stamp `updated_at`, re-validate as `CourseRead`, store. -/
def update_course (courses : Store CourseRead) (course_id : Nat)
    (update : CourseUpdate) (now : Nat) :
    Except PyErr (Store CourseRead × CourseRead) :=
  match courses.lookup course_id with
  | none => .error .notFound
  | some stored =>
    match CourseRead.validate (overlayCourse stored update now) with
    | none => .error .validationErr
    | some r => .ok (courses.set course_id r, r)

/-- `DELETE /courses/{course_id}` (`delete_course`). -/
def delete_course (courses : Store CourseRead) (course_id : Nat) :
    Except PyErr (Store CourseRead × CourseRead) :=
  match courses.lookup course_id with
  | none => .error .notFound
  | some c => .ok (courses.erase course_id, c)

/-! ## Student model (`models/student.py`) -/

/-- The UNI pattern `^[a-z]{2,3}\d{1,4}$` (`UNIType` in `models/student.py`):
2-3 lowercase ASCII letters followed by 1-4 ASCII digits, nothing else. -/
def isLowerAlpha (c : Char) : Bool := 'a' ≤ c && c ≤ 'z'

/-- ASCII digit test for the UNI pattern. -/
def isAsciiDigit (c : Char) : Bool := '0' ≤ c && c ≤ '9'

/-- Whether a string matches the anchored UNI pattern. -/
def uniOk (s : String) : Bool :=
  let cs := s.data
  let letters := cs.takeWhile isLowerAlpha
  let rest := cs.dropWhile isLowerAlpha
  decide (2 ≤ letters.length) && decide (letters.length ≤ 3) &&
    decide (1 ≤ rest.length) && decide (rest.length ≤ 4) && rest.all isAsciiDigit

/-- `StudentBase`: the domain fields shared by every student shape. Email
syntax validation (`EmailStr`) is performed by an external library and is not
modelled; `courses` embeds full `CourseBase` copies. -/
structure StudentBase where
  uni : String
  first_name : String
  last_name : String
  major : String
  grade : String
  email : String
  phone : Option String
  birth_date : Option String
  courses : List CourseBase
deriving DecidableEq, Repr

/-- `StudentCreate` adds no fields to `StudentBase`. -/
abbrev StudentCreate := StudentBase

/-- Payload validation of `StudentCreate` beyond shape: the constrained
`UNIType` pattern must hold (pydantic checks it before the handler runs). -/
def StudentCreate.validPayload (s : StudentCreate) : Bool := uniOk s.uni

/-- `StudentUpdate`: every field optional with "exclude unset" tracking. -/
structure StudentUpdate where
  uni : Option (Option String) := none
  first_name : Option (Option String) := none
  last_name : Option (Option String) := none
  major : Option (Option String) := none
  grade : Option (Option String) := none
  email : Option (Option String) := none
  phone : Option (Option String) := none
  birth_date : Option (Option String) := none
  courses : Option (Option (List CourseBase)) := none
deriving DecidableEq, Repr

/-- Payload validation of `StudentUpdate`: a supplied non-null `uni` must
match the `UNIType` pattern (pydantic checks it before the handler runs). -/
def StudentUpdate.validPayload (u : StudentUpdate) : Bool :=
  match u.uni with
  | some (some s) => uniOk s
  | _ => true

/-- `StudentRead`: `StudentBase` plus server-assigned identity and timestamps. -/
structure StudentRead where
  uni : String
  first_name : String
  last_name : String
  major : String
  grade : String
  email : String
  phone : Option String
  birth_date : Option String
  courses : List CourseBase
  id : Nat
  created_at : Nat
  updated_at : Nat
deriving DecidableEq, Repr

/-- `model_dump()` of a `StudentRead` after a dict `update`: required fields
may have been overwritten with `None`. -/
structure StudentDump where
  uni : Option String
  first_name : Option String
  last_name : Option String
  major : Option String
  grade : Option String
  email : Option String
  phone : Option String
  birth_date : Option String
  courses : Option (List CourseBase)
  id : Nat
  created_at : Nat
  updated_at : Nat
deriving DecidableEq, Repr

/-- `StudentRead(**stored)`: pydantic re-validation of a merged dump.
Required fields must be non-null, and the constrained `uni` must match the
`UNIType` pattern. -/
def StudentRead.validate (d : StudentDump) : Option StudentRead :=
  d.uni.bind fun un =>
  if uniOk un then
    d.first_name.bind fun fn =>
    d.last_name.bind fun ln =>
    d.major.bind fun mj =>
    d.grade.bind fun gr =>
    d.email.bind fun em =>
    d.courses.bind fun cs =>
    some { uni := un, first_name := fn, last_name := ln, major := mj,
           grade := gr, email := em, phone := d.phone,
           birth_date := d.birth_date, courses := cs, id := d.id,
           created_at := d.created_at, updated_at := d.updated_at }
  else none

/-- `stored.update(update.model_dump(exclude_unset=True))` followed by
`stored['updated_at'] = now`, for a student. -/
def overlayStudent (stored : StudentRead) (u : StudentUpdate) (now : Nat) :
    StudentDump :=
  { uni := updField u.uni (some stored.uni)
    first_name := updField u.first_name (some stored.first_name)
    last_name := updField u.last_name (some stored.last_name)
    major := updField u.major (some stored.major)
    grade := updField u.grade (some stored.grade)
    email := updField u.email (some stored.email)
    phone := updField u.phone stored.phone
    birth_date := updField u.birth_date stored.birth_date
    courses := updField u.courses (some stored.courses)
    id := stored.id
    created_at := stored.created_at
    updated_at := now }

/-- The `StudentRead(id=new_id, created_at=now, updated_at=now,
**student.model_dump())` record built by `create_student`. -/
def mkStudentRead (new_id : Nat) (now : Nat) (s : StudentCreate) : StudentRead :=
  { uni := s.uni, first_name := s.first_name, last_name := s.last_name,
    major := s.major, grade := s.grade, email := s.email, phone := s.phone,
    birth_date := s.birth_date, courses := s.courses, id := new_id,
    created_at := now, updated_at := now }

/-! ## Student endpoints (`main.py`) -/

/-- The item assignment `student_read[new_id] = student_read` in
`create_student`: a pydantic model does not support item assignment, so this
raises `TypeError` at runtime (the intended target was `students[new_id]`). -/
def StudentRead.setitem (_ : StudentRead) (_ : Nat) (_ : StudentRead) :
    Except PyErr Unit := .error .typeErr

/-- `POST /students` (`create_student`): note the source checks the fresh
identifier against the `courses` dict, not `students`, and then assigns into
the `student_read` object instead of the `students` dict. On success it would
return the (unchanged) student store and the built record. -/
def create_student (students : Store StudentRead) (courses : Store CourseRead)
    (new_id : Nat) (now : Nat) (student : StudentCreate) :
    Except PyErr (Store StudentRead × StudentRead) :=
  if (courses.lookup new_id).isSome then
    .error .conflict
  else
    let student_read := mkStudentRead new_id now student
    match student_read.setitem new_id student_read with
    | .error e => .error e
    | .ok _ => .ok (students, student_read)

/-- Query parameters of `GET /students`. -/
structure StudentQuery where
  uni : Option String := none
  first_name : Option String := none
  last_name : Option String := none
  major : Option String := none
  grade : Option String := none
  email : Option String := none
  phone : Option String := none
  birth_date : Option String := none
  department_code : Option String := none
  instructor : Option String := none
deriving DecidableEq, Repr

/-- Filter step on `s.uni` (case-insensitive equality). -/
def studentUniStep (q : String) (results : List StudentRead) : List StudentRead :=
  results.filter fun s => lowerStr s.uni = lowerStr q

/-- Filter step on `s.first_name` (case-insensitive equality). -/
def studentFirstStep (q : String) (results : List StudentRead) : List StudentRead :=
  results.filter fun s => lowerStr s.first_name = lowerStr q

/-- Filter step on `s.last_name` (case-insensitive equality). -/
def studentLastStep (q : String) (results : List StudentRead) : List StudentRead :=
  results.filter fun s => lowerStr s.last_name = lowerStr q

/-- Filter step on `s.major` (case-insensitive equality). -/
def studentMajorStep (q : String) (results : List StudentRead) : List StudentRead :=
  results.filter fun s => lowerStr s.major = lowerStr q

/-- Filter step on `s.grade` (case-insensitive equality). -/
def studentGradeStep (q : String) (results : List StudentRead) : List StudentRead :=
  results.filter fun s => lowerStr s.grade = lowerStr q

/-- Filter step `[s for s in results if s.email == email]` (exact match). -/
def studentEmailStep (q : String) (results : List StudentRead) : List StudentRead :=
  results.filter fun s => s.email = q

/-- Filter step `[s for s in results if s.phone == phone]` (exact match on the
optional phone; a `None` phone never equals a supplied string). -/
def studentPhoneStep (q : String) (results : List StudentRead) : List StudentRead :=
  results.filter fun s => s.phone = some q

/-- Filter step `[s for s in results if str(s.birth_date) == birth_date]`. -/
def studentBirthStep (q : String) (results : List StudentRead) : List StudentRead :=
  results.filter fun s => pyStr s.birth_date = q

/-- Nested filter step on the embedded courses' `department_code`:
`any(course.department_code.lower() == department_code.lower() for course in s.courses)`. -/
def studentDeptStep (q : String) (results : List StudentRead) : List StudentRead :=
  results.filter fun s =>
    s.courses.any fun course => lowerStr course.department_code = lowerStr q

/-- The name `p` used by the nested instructor filter: it is not bound
anywhere in `list_students`, so evaluating it raises `NameError`. -/
def pVarLookup : Except PyErr StudentRead := .error .nameErr

/-- Nested filter step on the instructor of embedded courses: the source
comprehension is `[s for s in results if any(course.instructor.lower() ==
instructor.lower() for course in p.courses)]`, which evaluates the unbound
name `p` for each element; the comprehension short-circuits at the first
element and yields `[]` untouched when `results` is already empty. -/
def studentInstructorStep (q : String) :
    List StudentRead → Except PyErr (List StudentRead)
  | [] => .ok []
  | s :: rest =>
    match pVarLookup with
    | .error e => .error e
    | .ok p => do
      let r ← studentInstructorStep q rest
      .ok (if p.courses.any fun course =>
              lowerStr course.instructor = lowerStr q
           then s :: r else r)

/-- `GET /students` (`list_students`): the ten filter steps in source order. -/
def list_students (students : Store StudentRead) (q : StudentQuery) :
    Except PyErr (List StudentRead) := do
  let results := students.values
  let results := optStep q.uni studentUniStep results
  let results := optStep q.first_name studentFirstStep results
  let results := optStep q.last_name studentLastStep results
  let results := optStep q.major studentMajorStep results
  let results := optStep q.grade studentGradeStep results
  let results := optStep q.email studentEmailStep results
  let results := optStep q.phone studentPhoneStep results
  let results := optStep q.birth_date studentBirthStep results
  let results := optStep q.department_code studentDeptStep results
  let results ← match q.instructor with
    | none => pure results
    | some s => studentInstructorStep s results
  return results

/-- The subscript `student_id[student_id]` in `get_person`: a UUID object is
not subscriptable, so this raises `TypeError` at runtime (the intended
expression was `students[student_id]`). -/
def uuidGetitem (_ : Nat) (_ : Nat) : Except PyErr StudentRead := .error .typeErr

/-- `GET /students/{student_id}` (`get_person`): a missing identifier is a
404; for a present identifier the source returns `student_id[student_id]`. -/
def get_person (students : Store StudentRead) (student_id : Nat) :
    Except PyErr StudentRead :=
  match students.lookup student_id with
  | none => .error .notFound
  | some _ => uuidGetitem student_id student_id

/-- `PATCH /students/{student_id}` (`update_person`). -/
def update_person (students : Store StudentRead) (student_id : Nat)
    (update : StudentUpdate) (now : Nat) :
    Except PyErr (Store StudentRead × StudentRead) :=
  match students.lookup student_id with
  | none => .error .notFound
  | some stored =>
    match StudentRead.validate (overlayStudent stored update now) with
    | none => .error .validationErr
    | some r => .ok (students.set student_id r, r)

/-- `DELETE /students/{student_id}` (`delete_person`). -/
def delete_person (students : Store StudentRead) (student_id : Nat) :
    Except PyErr (Store StudentRead × StudentRead) :=
  match students.lookup student_id with
  | none => .error .notFound
  | some s => .ok (students.erase student_id, s)

/-! ## Sample data (from the schema examples and the spec scenario) -/

/-- The `CourseCreate` payload of the spec's example scenario. -/
def fergusonCreate : CourseCreate :=
  { department_code := "COMS", course_code := "4153", title := "Cloud Computing",
    instructor := "Donald Ferguson", days := "F", start_time := "1:10PM",
    end_time := "3:45PM", location := "501 NORTHWEST CORNER", size := 100,
    credit := 3, «section» := none, enrollment := none }

/-- The read record minted for `fergusonCreate` with id 1 at instant 0. -/
def fergusonRead : CourseRead := mkCourseRead 1 0 fergusonCreate

/-- A valid `StudentCreate` payload (the Ada example of the schemas). -/
def adaCreate : StudentCreate :=
  { uni := "abc1234", first_name := "Ada", last_name := "Lovelace",
    major := "Computer Science", grade := "Senior", email := "ada@example.com",
    phone := none, birth_date := none, courses := [fergusonCreate] }

/-- The read record `create_student` builds for `adaCreate` with id 3 at 0. -/
def adaRead : StudentRead := mkStudentRead 3 0 adaCreate

/-! ## Store lemmas -/

theorem Store.lookup_set {V : Type} (s : Store V) (k : Nat) (v : V) :
    (s.set k v).lookup k = some v := by
  induction s with
  | nil => simp [Store.set, Store.lookup]
  | cons hd tl ih =>
    obtain ⟨k', v'⟩ := hd
    by_cases h : k' = k <;> simp [Store.set, Store.lookup, h, ih]

theorem Store.lookup_erase {V : Type} (s : Store V) (k : Nat) :
    (s.erase k).lookup k = none := by
  induction s with
  | nil => rfl
  | cons hd tl ih =>
    obtain ⟨k', v'⟩ := hd
    by_cases h : k' = k <;> simp [Store.erase, Store.lookup, h, ih]

/-! ## Overlay lemmas -/

/-- Inversion of one required-field overlay: if merging produced `some rv`,
an unset payload field kept the stored value and a set non-null payload
field imposed its value. -/
theorem updReq {β : Type} (uf : Option (Option β)) (sv rv : β)
    (h : updField uf (some sv) = some rv) :
    (uf = none → rv = sv) ∧ ∀ v, uf = some (some v) → rv = v := by
  constructor
  · intro h0
    subst h0
    simp [updField] at h
    exact h.symm
  · intro v hv
    subst hv
    simp [updField] at h
    exact h.symm

/-- Inversion of one optional-field overlay. -/
theorem updOpt {β : Type} (uf : Option β) (sv rv : β)
    (h : updField uf sv = rv) :
    (uf = none → rv = sv) ∧ ∀ v, uf = some v → rv = v := by
  constructor
  · intro h0
    subst h0
    simpa [updField] using h.symm
  · intro v hv
    subst hv
    simpa [updField] using h.symm

/-- Inversion of `CourseRead.validate`: a successful re-validation pins every
field of the result to the corresponding dump entry. -/
theorem courseValidate_eq_some {d : CourseDump} {r : CourseRead}
    (h : CourseRead.validate d = some r) :
    d.department_code = some r.department_code ∧
    d.course_code = some r.course_code ∧
    d.title = some r.title ∧
    d.instructor = some r.instructor ∧
    d.days = some r.days ∧
    d.start_time = some r.start_time ∧
    d.end_time = some r.end_time ∧
    d.location = some r.location ∧
    d.size = some r.size ∧
    d.credit = some r.credit ∧
    r.«section» = d.«section» ∧
    r.enrollment = d.enrollment ∧
    r.id = d.id ∧
    r.created_at = d.created_at ∧
    r.updated_at = d.updated_at := by
  simp only [CourseRead.validate, Option.bind_eq_some] at h
  obtain ⟨dc, hdc, cc, hcc, t, ht, ins, hins, dy, hdy, st, hst, et, het,
    loc, hloc, sz, hsz, cr, hcr, hr⟩ := h
  simp only [Option.some.injEq] at hr
  subst hr
  exact ⟨hdc, hcc, ht, hins, hdy, hst, het, hloc, hsz, hcr,
    rfl, rfl, rfl, rfl, rfl⟩

/-- Inversion of `StudentRead.validate`: a successful re-validation pins
every field of the result to the corresponding dump entry (and the dump's
`uni` matched the pattern). -/
theorem studentValidate_eq_some {d : StudentDump} {r : StudentRead}
    (h : StudentRead.validate d = some r) :
    d.uni = some r.uni ∧
    uniOk r.uni = true ∧
    d.first_name = some r.first_name ∧
    d.last_name = some r.last_name ∧
    d.major = some r.major ∧
    d.grade = some r.grade ∧
    d.email = some r.email ∧
    r.phone = d.phone ∧
    r.birth_date = d.birth_date ∧
    d.courses = some r.courses ∧
    r.id = d.id ∧
    r.created_at = d.created_at ∧
    r.updated_at = d.updated_at := by
  simp only [StudentRead.validate, Option.bind_eq_some] at h
  obtain ⟨un, hun, h⟩ := h
  by_cases hok : uniOk un = true
  · rw [if_pos hok] at h
    simp only [Option.bind_eq_some] at h
    obtain ⟨fn, hfn, ln, hln, mj, hmj, gr, hgr, em, hem, cs, hcs, hr⟩ := h
    simp only [Option.some.injEq] at hr
    subst hr
    exact ⟨hun, hok, hfn, hln, hmj, hgr, hem, rfl, rfl, hcs, rfl, rfl, rfl⟩
  · rw [if_neg hok] at h
    cases h

/-! ## Claim theorems -/

/-- C1: the student Create handler does not store the new record — it
item-assigns into the `StudentRead` object itself (a `TypeError`) instead of
the `students` dict, so the handler errors and the store stays empty; and
Get-by-id on an identifier that is present returns `student_id[student_id]`
(a `TypeError`) rather than the stored record, while an absent identifier
does signal NotFound. -/
theorem create_student_never_stores_and_get_person_crashes :
    create_student [] [] 5 0 adaCreate = .error .typeErr ∧
    get_person [(3, adaRead)] 3 = .error .typeErr ∧
    get_person [] 3 = .error .notFound :=
  ⟨rfl, rfl, rfl⟩

/-- C5: with one student in the store, filtering the student list by
`instructor` evaluates the unbound name `p` and raises `NameError` instead of
examining the student's own embedded courses, while the `department_code`
nested filter does work as described. -/
theorem list_students_instructor_filter_name_error :
    list_students [(3, adaRead)] { instructor := some "ferguson" } =
      .error .nameErr ∧
    list_students [(3, adaRead)] { instructor := some "Donald Ferguson" } =
      .error .nameErr ∧
    list_students [(3, adaRead)] { department_code := some "coms" } =
      .ok [adaRead] :=
  ⟨rfl, rfl, by decide⟩

/-- C6: student Create checks the freshly generated identifier against the
`courses` dict, not the `students` dict: an identifier already present among
students raises no Conflict (the handler proceeds and fails with the
storage `TypeError`), while an identifier present among courses — in the
other collection — does raise Conflict. -/
theorem create_student_collision_checks_wrong_store :
    Store.lookup [(7, adaRead)] 7 = some adaRead ∧
    create_student [(7, adaRead)] [] 7 0 adaCreate = .error .typeErr ∧
    Store.lookup ([] : Store StudentRead) 7 = none ∧
    create_student [] [(7, fergusonRead)] 7 0 adaCreate = .error .conflict :=
  ⟨rfl, rfl, rfl, rfl⟩

/-- C7: filter application is not order-independent: on a store holding the
Ferguson course, applying the `department_code` filter (which empties the
list) before the `course_code` filter yields `[]`, while applying the
`course_code` filter first raises `AttributeError`; the endpoint's fixed
order therefore returns `[]` where the claimed AND-of-predicates semantics
is unattainable. -/
theorem course_filters_not_order_independent :
    courseCodeStep "4153" (courseDeptStep "EECS" [fergusonRead]) = .ok [] ∧
    Except.map (courseDeptStep "EECS") (courseCodeStep "4153" [fergusonRead]) =
      .error .attrErr ∧
    list_courses [(1, fergusonRead)]
      { department_code := some "EECS", course_code := some "4153" } = .ok [] :=
  ⟨by decide, rfl, by decide⟩

/-- C8: creating the example Cloud Computing course in an empty store and
then listing with `instructor=ferguson` returns exactly that course, via the
case-insensitive substring instructor filter. -/
theorem ferguson_course_scenario :
    create_course [] 1 0 fergusonCreate = .ok ([(1, fergusonRead)], fergusonRead) ∧
    list_courses [(1, fergusonRead)] { instructor := some "ferguson" } =
      .ok [fergusonRead] :=
  ⟨rfl, by decide⟩

/-- C10: on any non-empty course store, supplying the `course_code` query
parameter makes the course list endpoint fail with `AttributeError`: the
filter reads `c.course_id`, an attribute `CourseRead` does not define. -/
theorem list_courses_course_code_always_fails
    (courses : Store CourseRead) (q : String) (h : courses ≠ []) :
    list_courses courses { course_code := some q } = .error .attrErr := by
  cases courses with
  | nil => exact absurd rfl h
  | cons hd tl =>
    obtain ⟨k, v⟩ := hd
    simp [list_courses, Store.values, optStep, courseCodeStep,
      CourseRead.course_id_attr]

/-- Witness for C10 at a singleton store. -/
theorem list_courses_course_code_always_fails_witness :
    ([(1, fergusonRead)] : Store CourseRead) ≠ [] ∧
    list_courses [(1, fergusonRead)] { course_code := some "4153" } =
      .error .attrErr :=
  ⟨by simp, list_courses_course_code_always_fails [(1, fergusonRead)] "4153"
    (by simp)⟩

/-- C2: course Create returns the freshly minted Read record whose
non-identity fields equal the payload and whose identifier and two equal
timestamps are populated; student Create, by contrast, raises `TypeError`
before returning any record. -/
theorem create_returns_payload_with_equal_timestamps :
    (∀ (courses : Store CourseRead) (new_id now : Nat) (c : CourseCreate),
      courses.lookup new_id = none →
      create_course courses new_id now c =
        .ok (courses.set new_id (mkCourseRead new_id now c),
             mkCourseRead new_id now c)) ∧
    (∀ (new_id now : Nat) (c : CourseCreate),
      (mkCourseRead new_id now c).department_code = c.department_code ∧
      (mkCourseRead new_id now c).course_code = c.course_code ∧
      (mkCourseRead new_id now c).title = c.title ∧
      (mkCourseRead new_id now c).instructor = c.instructor ∧
      (mkCourseRead new_id now c).days = c.days ∧
      (mkCourseRead new_id now c).start_time = c.start_time ∧
      (mkCourseRead new_id now c).end_time = c.end_time ∧
      (mkCourseRead new_id now c).location = c.location ∧
      (mkCourseRead new_id now c).size = c.size ∧
      (mkCourseRead new_id now c).credit = c.credit ∧
      (mkCourseRead new_id now c).«section» = c.«section» ∧
      (mkCourseRead new_id now c).enrollment = c.enrollment ∧
      (mkCourseRead new_id now c).id = new_id ∧
      (mkCourseRead new_id now c).created_at = now ∧
      (mkCourseRead new_id now c).updated_at = now) ∧
    create_student [] [] 5 0 adaCreate = .error .typeErr := by
  refine ⟨?_, ?_, rfl⟩
  · intro courses new_id now c hfresh
    simp [create_course, hfresh]
  · intro new_id now c
    exact ⟨rfl, rfl, rfl, rfl, rfl, rfl, rfl, rfl, rfl, rfl, rfl, rfl,
      rfl, rfl, rfl⟩

/-- Witness for C2 at the example course payload in an empty store. -/
theorem create_returns_payload_witness :
    create_course [] 1 0 fergusonCreate =
      .ok (Store.set [] 1 (mkCourseRead 1 0 fergusonCreate),
           mkCourseRead 1 0 fergusonCreate) :=
  create_returns_payload_with_equal_timestamps.1 [] 1 0 fergusonCreate rfl

/-- C4: Delete on a present identifier removes the record and returns it, a
subsequent Get-by-id signals NotFound, and Delete on an absent identifier
signals NotFound — for the course store via the Create-then-Delete chain and
for the student store over any state holding the identifier. -/
theorem delete_removes_and_returns_prior :
    (∀ (courses : Store CourseRead) (new_id now : Nat) (c : CourseCreate)
        (courses' : Store CourseRead) (r : CourseRead),
      create_course courses new_id now c = .ok (courses', r) →
      delete_course courses' new_id = .ok (courses'.erase new_id, r) ∧
      get_course (courses'.erase new_id) new_id = .error .notFound) ∧
    (∀ (courses : Store CourseRead) (cid : Nat),
      courses.lookup cid = none →
      delete_course courses cid = .error .notFound) ∧
    (∀ (students : Store StudentRead) (sid : Nat) (r : StudentRead),
      students.lookup sid = some r →
      delete_person students sid = .ok (students.erase sid, r) ∧
      get_person (students.erase sid) sid = .error .notFound) ∧
    (∀ (students : Store StudentRead) (sid : Nat),
      students.lookup sid = none →
      delete_person students sid = .error .notFound) := by
  refine ⟨?_, ?_, ?_, ?_⟩
  · intro courses new_id now c courses' r h
    by_cases hfresh : (courses.lookup new_id).isSome
    · simp [create_course, hfresh] at h
    · simp [create_course, hfresh] at h
      obtain ⟨hc, hr⟩ := h
      subst hc
      subst hr
      constructor
      · simp [delete_course, Store.lookup_set]
      · simp [get_course, Store.lookup_erase]
  · intro courses cid h
    simp [delete_course, h]
  · intro students sid r h
    constructor
    · simp [delete_person, h]
    · simp [get_person, Store.lookup_erase]
  · intro students sid h
    simp [delete_person, h]

/-- Witness for C4: the Ferguson course created in an empty store, then
deleted; Ada's record deleted from a singleton student store; deletes on
empty stores. -/
theorem delete_removes_and_returns_prior_witness :
    (delete_course [(1, fergusonRead)] 1 =
       .ok (Store.erase [(1, fergusonRead)] 1, fergusonRead) ∧
     get_course (Store.erase [(1, fergusonRead)] 1) 1 = .error .notFound) ∧
    delete_course ([] : Store CourseRead) 1 = .error .notFound ∧
    (delete_person [(3, adaRead)] 3 =
       .ok (Store.erase [(3, adaRead)] 3, adaRead) ∧
     get_person (Store.erase [(3, adaRead)] 3) 3 = .error .notFound) ∧
    delete_person ([] : Store StudentRead) 3 = .error .notFound :=
  ⟨delete_removes_and_returns_prior.1 [] 1 0 fergusonCreate
      [(1, fergusonRead)] fergusonRead rfl,
   delete_removes_and_returns_prior.2.1 [] 1 rfl,
   delete_removes_and_returns_prior.2.2.1 [(3, adaRead)] 3 adaRead rfl,
   delete_removes_and_returns_prior.2.2.2 [] 3 rfl⟩

/-- C9: the UNI pattern accepts `abc1234` and rejects `ABCD1`, `ab12345`
and `a1`; payload validation enforces the pattern on the full Create shape
and on the partial Update shape whenever the field is present. -/
theorem uni_pattern_enforced :
    uniOk "abc1234" = true ∧
    uniOk "ABCD1" = false ∧
    uniOk "ab12345" = false ∧
    uniOk "a1" = false ∧
    (∀ s : StudentCreate, s.validPayload = uniOk s.uni) ∧
    (∀ (u : StudentUpdate) (x : String),
      u.uni = some (some x) → u.validPayload = uniOk x) ∧
    StudentUpdate.validPayload { uni := some (some "abc1234") } = true ∧
    StudentUpdate.validPayload { uni := some (some "ABCD1") } = false := by
  refine ⟨by decide, by decide, by decide, by decide, fun s => rfl, ?_,
    by decide, by decide⟩
  intro u x hx
  simp [StudentUpdate.validPayload, hx]

/-- Witness for C9 at a concrete partial payload. -/
theorem uni_pattern_enforced_witness :
    StudentUpdate.validPayload { uni := some (some "a1") } = uniOk "a1" :=
  uni_pattern_enforced.2.2.2.2.2.1 { uni := some (some "a1") } "a1" rfl

/-- Unfolding of `update_course` once the stored record is known. -/
theorem update_course_found (courses : Store CourseRead) (cid : Nat)
    (u : CourseUpdate) (now : Nat) (stored : CourseRead)
    (hs : courses.lookup cid = some stored) :
    update_course courses cid u now =
      match CourseRead.validate (overlayCourse stored u now) with
      | none => .error .validationErr
      | some r => .ok (courses.set cid r, r) := by
  unfold update_course
  rw [hs]

/-- Unfolding of `update_person` once the stored record is known. -/
theorem update_person_found (students : Store StudentRead) (sid : Nat)
    (u : StudentUpdate) (now : Nat) (stored : StudentRead)
    (hs : students.lookup sid = some stored) :
    update_person students sid u now =
      match StudentRead.validate (overlayStudent stored u now) with
      | none => .error .validationErr
      | some r => .ok (students.set sid r, r) := by
  unfold update_person
  rw [hs]

/-- C3: on a successful partial update (course or student), every field not
present in the payload keeps its stored value, every field present with a
non-null value takes the payload's value (optional fields take whatever
value was supplied, null included), `created_at` is unchanged and
`updated_at` is stamped to the current instant. -/
theorem partial_update_frame :
    (∀ (courses : Store CourseRead) (cid : Nat) (u : CourseUpdate) (now : Nat)
        (stored : CourseRead) (courses' : Store CourseRead) (r : CourseRead),
      courses.lookup cid = some stored →
      update_course courses cid u now = .ok (courses', r) →
      (u.department_code = none → r.department_code = stored.department_code) ∧
      (∀ v, u.department_code = some (some v) → r.department_code = v) ∧
      (u.course_code = none → r.course_code = stored.course_code) ∧
      (∀ v, u.course_code = some (some v) → r.course_code = v) ∧
      (u.title = none → r.title = stored.title) ∧
      (∀ v, u.title = some (some v) → r.title = v) ∧
      (u.instructor = none → r.instructor = stored.instructor) ∧
      (∀ v, u.instructor = some (some v) → r.instructor = v) ∧
      (u.days = none → r.days = stored.days) ∧
      (∀ v, u.days = some (some v) → r.days = v) ∧
      (u.start_time = none → r.start_time = stored.start_time) ∧
      (∀ v, u.start_time = some (some v) → r.start_time = v) ∧
      (u.end_time = none → r.end_time = stored.end_time) ∧
      (∀ v, u.end_time = some (some v) → r.end_time = v) ∧
      (u.location = none → r.location = stored.location) ∧
      (∀ v, u.location = some (some v) → r.location = v) ∧
      (u.size = none → r.size = stored.size) ∧
      (∀ v, u.size = some (some v) → r.size = v) ∧
      (u.credit = none → r.credit = stored.credit) ∧
      (∀ v, u.credit = some (some v) → r.credit = v) ∧
      (u.«section» = none → r.«section» = stored.«section») ∧
      (∀ v, u.«section» = some v → r.«section» = v) ∧
      (u.enrollment = none → r.enrollment = stored.enrollment) ∧
      (∀ v, u.enrollment = some v → r.enrollment = v) ∧
      r.created_at = stored.created_at ∧
      r.updated_at = now) ∧
    (∀ (students : Store StudentRead) (sid : Nat) (u : StudentUpdate)
        (now : Nat) (stored : StudentRead) (students' : Store StudentRead)
        (r : StudentRead),
      students.lookup sid = some stored →
      update_person students sid u now = .ok (students', r) →
      (u.uni = none → r.uni = stored.uni) ∧
      (∀ v, u.uni = some (some v) → r.uni = v) ∧
      (u.first_name = none → r.first_name = stored.first_name) ∧
      (∀ v, u.first_name = some (some v) → r.first_name = v) ∧
      (u.last_name = none → r.last_name = stored.last_name) ∧
      (∀ v, u.last_name = some (some v) → r.last_name = v) ∧
      (u.major = none → r.major = stored.major) ∧
      (∀ v, u.major = some (some v) → r.major = v) ∧
      (u.grade = none → r.grade = stored.grade) ∧
      (∀ v, u.grade = some (some v) → r.grade = v) ∧
      (u.email = none → r.email = stored.email) ∧
      (∀ v, u.email = some (some v) → r.email = v) ∧
      (u.phone = none → r.phone = stored.phone) ∧
      (∀ v, u.phone = some v → r.phone = v) ∧
      (u.birth_date = none → r.birth_date = stored.birth_date) ∧
      (∀ v, u.birth_date = some v → r.birth_date = v) ∧
      (u.courses = none → r.courses = stored.courses) ∧
      (∀ v, u.courses = some (some v) → r.courses = v) ∧
      r.created_at = stored.created_at ∧
      r.updated_at = now) := by
  constructor
  · intro courses cid u now stored courses' r hs h
    rw [update_course_found courses cid u now stored hs] at h
    cases hv : CourseRead.validate (overlayCourse stored u now) with
    | none => rw [hv] at h; cases h
    | some r' =>
      rw [hv] at h
      simp only [Except.ok.injEq, Prod.mk.injEq] at h
      obtain ⟨-, hr⟩ := h
      subst hr
      obtain ⟨hdc, hcc, ht, hins, hdy, hst, het, hloc, hsz, hcr, hsec, henr,
        -, hca, hua⟩ := courseValidate_eq_some hv
      simp only [overlayCourse] at hdc hcc ht hins hdy hst het hloc hsz hcr hsec henr hca hua
      exact ⟨(updReq _ _ _ hdc).1, (updReq _ _ _ hdc).2,
        (updReq _ _ _ hcc).1, (updReq _ _ _ hcc).2,
        (updReq _ _ _ ht).1, (updReq _ _ _ ht).2,
        (updReq _ _ _ hins).1, (updReq _ _ _ hins).2,
        (updReq _ _ _ hdy).1, (updReq _ _ _ hdy).2,
        (updReq _ _ _ hst).1, (updReq _ _ _ hst).2,
        (updReq _ _ _ het).1, (updReq _ _ _ het).2,
        (updReq _ _ _ hloc).1, (updReq _ _ _ hloc).2,
        (updReq _ _ _ hsz).1, (updReq _ _ _ hsz).2,
        (updReq _ _ _ hcr).1, (updReq _ _ _ hcr).2,
        (updOpt _ _ _ hsec.symm).1, (updOpt _ _ _ hsec.symm).2,
        (updOpt _ _ _ henr.symm).1, (updOpt _ _ _ henr.symm).2,
        hca, hua⟩
  · intro students sid u now stored students' r hs h
    rw [update_person_found students sid u now stored hs] at h
    cases hv : StudentRead.validate (overlayStudent stored u now) with
    | none => rw [hv] at h; cases h
    | some r' =>
      rw [hv] at h
      simp only [Except.ok.injEq, Prod.mk.injEq] at h
      obtain ⟨-, hr⟩ := h
      subst hr
      obtain ⟨hun, -, hfn, hln, hmj, hgr, hem, hph, hbd, hcs, -, hca, hua⟩ :=
        studentValidate_eq_some hv
      simp only [overlayStudent] at hun hfn hln hmj hgr hem hph hbd hcs hca hua
      exact ⟨(updReq _ _ _ hun).1, (updReq _ _ _ hun).2,
        (updReq _ _ _ hfn).1, (updReq _ _ _ hfn).2,
        (updReq _ _ _ hln).1, (updReq _ _ _ hln).2,
        (updReq _ _ _ hmj).1, (updReq _ _ _ hmj).2,
        (updReq _ _ _ hgr).1, (updReq _ _ _ hgr).2,
        (updReq _ _ _ hem).1, (updReq _ _ _ hem).2,
        (updOpt _ _ _ hph.symm).1, (updOpt _ _ _ hph.symm).2,
        (updOpt _ _ _ hbd.symm).1, (updOpt _ _ _ hbd.symm).2,
        (updReq _ _ _ hcs).1, (updReq _ _ _ hcs).2,
        hca, hua⟩

/-- A partial payload that sets only the course title. -/
def titleOnlyUpdate : CourseUpdate := { title := some (some "Advanced Cloud Computing") }

/-- The record `update_course` produces for `titleOnlyUpdate` at instant 9. -/
def fergusonRetitled : CourseRead :=
  { fergusonRead with title := "Advanced Cloud Computing", updated_at := 9 }

/-- Witness for C3: a title-only course update keeps the other fields and
`created_at`, takes the new title, and stamps `updated_at`. -/
theorem partial_update_frame_witness :
    fergusonRetitled.days = fergusonRead.days ∧
    fergusonRetitled.title = "Advanced Cloud Computing" ∧
    fergusonRetitled.created_at = fergusonRead.created_at ∧
    fergusonRetitled.updated_at = 9 := by
  obtain ⟨-, -, -, -, -, h6, -, -, h9, -, -, -, -, -, -, -, -, -, -, -, -, -,
      -, -, h25, h26⟩ :=
    partial_update_frame.1 [(1, fergusonRead)] 1 titleOnlyUpdate 9 fergusonRead
      [(1, fergusonRetitled)] fergusonRetitled rfl rfl
  exact ⟨h9 rfl, h6 _ rfl, h25, h26⟩
